import Mathlib

/-!
Verification of the reset-and-detect algorithm of the serialutils package
(files reset.go and port_mapper.go).

The Go code is embedded shallowly:

* A Go port map (map[string]bool used as a set of visible ports) becomes a
  list of port names; membership is list membership.
* The caller-supplied PortsMapper is a stateful Go closure queried once per
  call.  It is modelled by its observable call sequence: a function from the
  call index (0, 1, 2, ...) to the pair (ports, error) that the n-th call
  returns, mirroring the two return values of the Go function.
* The progress callbacks of ResetProgressCallbacks are modelled by a trace of
  events: each event records one callback invocation that the code performs
  when the corresponding callback is non-nil.  Debug invocations are recorded
  as structured events (one constructor per Debug call site) instead of the
  formatted strings fmt.Sprintf produces.
* Real time is abstracted by fuel: the number of loop-head deadline checks
  `time.Now().Before(deadline)` that succeed.  Sleeps are no-ops.
* Touch1200bps talks to the serial driver; inside Reset only its error value
  is observable, so Reset takes that outcome as the parameter touchErr.
  Touch1200bps itself is embedded separately with the outcomes of the two
  driver calls (open, SetDTR) as parameters and a trace of driver actions.
-/

namespace Serialutils

/-- A snapshot of the visible serial ports: the keys of the Go
map[string]bool returned by a PortsMapper call. -/
abbrev Snapshot := List String

/-- The two return values of one PortsMapper call: the port map and the
error (none = nil). -/
abbrev MapperResult := Snapshot × Option String

/-- A ports mapper, modelled by its observable call sequence: the value at n
is what the (n+1)-th call of the Go closure returns. -/
abbrev PortsMapper := Nat → MapperResult

/-- One callback invocation performed by Reset.  debugLast, debugTouch,
debugWait, debugNewPorts, debugCheck and debugCheckFailed are the six Debug
call sites of reset.go, in source order. -/
inductive Event where
  | debugLast (ports : Snapshot)
  | debugTouch (port : String)
  | touchingPort (port : String)
  | waitingForNewSerial
  | debugWait (ports : Snapshot)
  | debugNewPorts
  | debugCheck (ports : Snapshot)
  | debugCheckFailed
  | bootloaderPortFound (port : String)
  deriving DecidableEq

/-- Go strings.HasSuffix: suffix test on the underlying character lists. -/
def hasSuffix (s suffix : String) : Bool := suffix.data.isSuffixOf s.data

/-- One update of the dry-run emulator state (reset.go lines 102-106):
append "0" when the emulated port ends in "999", become "newport" when it is
empty, otherwise stay unchanged. -/
def emuNext (e : String) : String :=
  if hasSuffix e "999" then e ++ "0"
  else if e = "" then "newport"
  else e

/-- The emulator state before the (n+1)-th call, starting from the target
port (reset.go line 96). -/
def emuState (target : String) : Nat → String
  | 0 => target
  | n + 1 => emuNext (emuState target n)

/-- The port map one emulator call reports: the current emulated port when
it is non-empty, nothing otherwise (reset.go lines 98-101). -/
def emuPorts (e : String) : Snapshot :=
  if e = "" then [] else [e]

/-- The dry-run emulator as a PortsMapper: the n-th call reports the ports
of the n-th state and never fails (reset.go lines 97-108). -/
def emuMapper (target : String) : PortsMapper :=
  fun n => (emuPorts (emuState target n), none)

/-- The mapper Reset actually polls: the dry-run emulator when dryRun is
set, the caller-supplied mapper otherwise (reset.go lines 95-109). -/
def effMapper (dryRun : Bool) (portToTouch : String) (pm : PortsMapper) : PortsMapper :=
  if dryRun then emuMapper portToTouch else pm

/-- The per-port test of the diff loops (reset.go lines 157 and 185): a port
is new when it is absent from the baseline. -/
def isNew (last : Snapshot) (p : String) : Bool := !last.contains p

/-- The polling loop of Reset (reset.go lines 147-204).  k is the call index
the next enumeration will use, last the current baseline, fuel the number of
remaining successful deadline checks, evs the event trace so far. -/
def resetLoop (pm : PortsMapper) (k : Nat) (last : Snapshot) (fuel : Nat)
    (evs : List Event) : (String × Option String) × List Event :=
  match fuel with
  | 0 => (("", none), evs ++ [Event.bootloaderPortFound ""])
  | fuel' + 1 =>
    match (pm k).2 with
    | some e => (("", some e), evs)
    | none =>
      let now := (pm k).1
      let evs1 := evs ++ [Event.debugWait now]
      if now.any (isNew last) then
        match (pm (k + 1)).2 with
        | some e => (("", some e), evs1 ++ [Event.debugNewPorts])
        | none =>
          let check := (pm (k + 1)).1
          let evs3 := evs1 ++ [Event.debugNewPorts, Event.debugCheck check]
          match check.find? (isNew last) with
          | some p => ((p, none), evs3 ++ [Event.bootloaderPortFound p])
          | none => resetLoop pm (k + 2) now fuel' (evs3 ++ [Event.debugCheckFailed])
      else
        resetLoop pm (k + 1) now fuel' evs1

/-- The tail of Reset after the touch block (reset.go lines 135-204): return
empty when wait is off, otherwise signal WaitingForNewSerial and poll. -/
def resetWait (epm : PortsMapper) (wait : Bool) (last : Snapshot) (fuel : Nat)
    (evs : List Event) : (String × Option String) × List Event :=
  if wait then resetLoop epm 1 last fuel (evs ++ [Event.waitingForNewSerial])
  else (("", none), evs)

/-- Reset (reset.go lines 91-205).  touchErr is the outcome of the
Touch1200bps call when it is performed; fuel bounds the polling loop as in
resetLoop.  The result is the (port, error) pair together with the callback
trace. -/
def Reset (portToTouch : String) (wait dryRun : Bool) (pm : PortsMapper)
    (touchErr : Option String) (fuel : Nat) : (String × Option String) × List Event :=
  let epm := effMapper dryRun portToTouch pm
  let last := (epm 0).1
  let evs0 := [Event.debugLast last]
  match (epm 0).2 with
  | some e => (("", some e), evs0)
  | none =>
    if (portToTouch != "") && last.contains portToTouch then
      let evs1 := evs0 ++ [Event.debugTouch portToTouch, Event.touchingPort portToTouch]
      if dryRun then
        resetWait epm wait last fuel evs1
      else
        match touchErr with
        | some e =>
          if !wait then (("", some ("1200-bps touch: " ++ e)), evs1)
          else resetWait epm wait last fuel evs1
        | none => resetWait epm wait last fuel evs1
    else
      resetWait epm wait last fuel evs0

/-- One call into the serial driver, as performed by Touch1200bps. -/
inductive SerialAction where
  | openPort (port : String) (baud : Nat)
  | setDTR (value : Bool)
  | closePort
  | sleepMs (ms : Nat)
  deriving DecidableEq

/-- Touch1200bps (reset.go lines 30-57).  isWindows is runtime.GOOS ==
"windows"; openErr and dtrErr are the outcomes of serial.Open and p.SetDTR.
The result is the returned error together with the trace of driver calls. -/
def Touch1200bps (port : String) (isWindows : Bool) (openErr dtrErr : Option String) :
    Option String × List SerialAction :=
  match openErr with
  | some e => (some ("opening port at 1200bps: " ++ e), [SerialAction.openPort port 1200])
  | none =>
    if isWindows then
      (none, [SerialAction.openPort port 1200, SerialAction.closePort, SerialAction.sleepMs 500])
    else
      match dtrErr with
      | some e =>
        (some ("setting DTR to OFF: " ++ e),
         [SerialAction.openPort port 1200, SerialAction.setDTR false, SerialAction.closePort])
      | none =>
        (none,
         [SerialAction.openPort port 1200, SerialAction.setDTR false,
          SerialAction.closePort, SerialAction.sleepMs 500])

/-- A mapper whose first call fails. -/
def errPm : PortsMapper := fun _ => ([], some "boom")

/-- A mapper that reports a new port and then fails on the stabilization
check. -/
def mixPm : PortsMapper := fun n => if n = 2 then ([], some "boom") else (["a"], none)

/-- A mapper that always reports the same single port and never fails. -/
def constPm : PortsMapper := fun _ => (["x"], none)

lemma resetLoop_empty_or_ok (pm : PortsMapper) (fuel : Nat) :
    ∀ (k : Nat) (last : Snapshot) (evs : List Event),
    (resetLoop pm k last fuel evs).1.2 = none ∨ (resetLoop pm k last fuel evs).1.1 = "" := by
  induction fuel with
  | zero => intro k last evs; left; rfl
  | succ n ih =>
    intro k last evs
    rw [resetLoop]
    cases h : (pm k).2 with
    | some e => right; rfl
    | none =>
      simp only []
      by_cases hNew : (pm k).1.any (isNew last) = true
      · simp only [hNew, if_true]
        cases h2 : (pm (k + 1)).2 with
        | some e => right; rfl
        | none =>
          simp only []
          cases h3 : (pm (k + 1)).1.find? (isNew last) with
          | some p => left; rfl
          | none => exact ih _ _ _
      · simp only [Bool.not_eq_true] at hNew
        simp only [hNew, Bool.false_eq_true, if_false]
        exact ih _ _ _

lemma resetWait_empty_or_ok (epm : PortsMapper) (w : Bool) (last : Snapshot)
    (fuel : Nat) (evs : List Event) :
    (resetWait epm w last fuel evs).1.2 = none ∨ (resetWait epm w last fuel evs).1.1 = "" := by
  rw [resetWait]
  by_cases hw : w = true
  · simp only [hw, if_true]
    exact resetLoop_empty_or_ok epm fuel 1 last (evs ++ [Event.waitingForNewSerial])
  · simp only [hw, if_false]
    left; rfl

/-- C10: Reset never returns a non-empty port together with a non-nil
error: on every input either the returned error is nil or the returned port
string is empty. -/
theorem reset_port_error_exclusive (pt : String) (w dr : Bool) (pm : PortsMapper)
    (te : Option String) (fuel : Nat) :
    (Reset pt w dr pm te fuel).1.2 = none ∨ (Reset pt w dr pm te fuel).1.1 = "" := by
  rw [Reset]
  cases h0 : (effMapper dr pt pm 0).2 with
  | some e => right; rfl
  | none =>
    simp only []
    by_cases ht : ((pt != "") && (effMapper dr pt pm 0).1.contains pt) = true
    · simp only [ht, if_true]
      by_cases hd : dr = true
      · simp only [hd, if_true]
        exact resetWait_empty_or_ok ..
      · simp only [Bool.not_eq_true] at hd
        simp only [hd, Bool.false_eq_true, if_false]
        cases te with
        | some e =>
          simp only []
          by_cases hw : w = true
          · simp only [hw, Bool.not_true, Bool.false_eq_true, if_false]
            exact resetWait_empty_or_ok ..
          · simp only [Bool.not_eq_true] at hw
            simp only [hw, Bool.not_false, if_true]
            right; trivial
        | none => exact resetWait_empty_or_ok ..
    · simp only [Bool.not_eq_true] at ht
      simp only [ht, Bool.false_eq_true, if_false]
      exact resetWait_empty_or_ok ..

/-- C2: an error from the ports mapper aborts Reset immediately with that
very error and an empty port, at each of the three call sites: the initial
snapshot, the per-iteration snapshot, and the stabilization-check
snapshot. -/
theorem mapper_error_aborts_reset :
    (∀ (pt : String) (w dr : Bool) (pm : PortsMapper) (te : Option String) (fuel : Nat)
        (e : String), (effMapper dr pt pm 0).2 = some e →
        (Reset pt w dr pm te fuel).1 = ("", some e))
  ∧ (∀ (pm : PortsMapper) (k : Nat) (last : Snapshot) (fuel : Nat) (evs : List Event)
        (e : String), (pm k).2 = some e →
        (resetLoop pm k last (fuel + 1) evs).1 = ("", some e))
  ∧ (∀ (pm : PortsMapper) (k : Nat) (last : Snapshot) (fuel : Nat) (evs : List Event)
        (e : String), (pm k).2 = none → (pm k).1.any (isNew last) = true →
        (pm (k + 1)).2 = some e →
        (resetLoop pm k last (fuel + 1) evs).1 = ("", some e)) := by
  refine ⟨?_, ?_, ?_⟩
  · intro pt w dr pm te fuel e h
    simp only [Reset, h]
  · intro pm k last fuel evs e h
    simp only [resetLoop, h]
  · intro pm k last fuel evs e h1 h2 h3
    simp only [resetLoop, h1, h2, h3, if_true]

/-- Witness for C2 at concrete inputs: an initial-call failure, a
per-iteration failure, and a stabilization-check failure. -/
theorem mapper_error_aborts_reset_witness :
    (Reset "p" true false errPm none 3).1 = ("", some "boom")
  ∧ (resetLoop errPm 1 [] 3 []).1 = ("", some "boom")
  ∧ (resetLoop mixPm 1 [] 3 []).1 = ("", some "boom") :=
  ⟨mapper_error_aborts_reset.1 "p" true false errPm none 3 "boom" rfl,
   mapper_error_aborts_reset.2.1 errPm 1 [] 2 [] "boom" rfl,
   mapper_error_aborts_reset.2.2 mixPm 1 [] 2 [] "boom" rfl rfl rfl⟩

/-- C9: whenever Touch1200bps opens the port it also closes it on every
path: an open failure returns the open error having performed no further
driver call; a DTR failure still closes the port and returns the
control-line error. -/
theorem touch_closes_port (port : String) (w : Bool) (oe de : Option String) :
    (∀ e, oe = some e →
      Touch1200bps port w oe de =
        (some ("opening port at 1200bps: " ++ e), [SerialAction.openPort port 1200]))
  ∧ (oe = none → SerialAction.closePort ∈ (Touch1200bps port w oe de).2)
  ∧ (∀ e, oe = none → w = false → de = some e →
      Touch1200bps port w oe de =
        (some ("setting DTR to OFF: " ++ e),
         [SerialAction.openPort port 1200, SerialAction.setDTR false,
          SerialAction.closePort])) := by
  refine ⟨?_, ?_, ?_⟩
  · intro e h; subst h; rfl
  · intro h; subst h
    by_cases hw : w = true
    · subst hw; simp [Touch1200bps]
    · simp only [Bool.not_eq_true] at hw; subst hw
      cases de <;> simp [Touch1200bps]
  · intro e h1 h2 h3; subst h1; subst h2; subst h3; rfl

lemma resetLoop_events_prefix (pm : PortsMapper) (fuel : Nat) :
    ∀ (k : Nat) (last : Snapshot) (evs : List Event),
    ∃ tail, (resetLoop pm k last fuel evs).2 = evs ++ tail := by
  induction fuel with
  | zero => intro k last evs; exact ⟨[Event.bootloaderPortFound ""], rfl⟩
  | succ n ih =>
    intro k last evs
    rw [resetLoop]
    cases h : (pm k).2 with
    | some e => exact ⟨[], by simp⟩
    | none =>
      simp only []
      by_cases hNew : (pm k).1.any (isNew last) = true
      · simp only [hNew, if_true]
        cases h2 : (pm (k + 1)).2 with
        | some e =>
          exact ⟨[Event.debugWait (pm k).1, Event.debugNewPorts], by simp⟩
        | none =>
          simp only []
          cases h3 : (pm (k + 1)).1.find? (isNew last) with
          | some p =>
            refine ⟨[Event.debugWait (pm k).1, Event.debugNewPorts,
                     Event.debugCheck (pm (k + 1)).1, Event.bootloaderPortFound p], by simp⟩
          | none =>
            obtain ⟨tail, htail⟩ := ih (k + 2) (pm k).1
              ((evs ++ [Event.debugWait (pm k).1] ++
                [Event.debugNewPorts, Event.debugCheck (pm (k + 1)).1]) ++
               [Event.debugCheckFailed])
            refine ⟨[Event.debugWait (pm k).1, Event.debugNewPorts,
                     Event.debugCheck (pm (k + 1)).1, Event.debugCheckFailed] ++ tail, ?_⟩
            rw [htail]; simp
      · simp only [Bool.not_eq_true] at hNew
        simp only [hNew, Bool.false_eq_true, if_false]
        obtain ⟨tail, htail⟩ := ih (k + 1) (pm k).1 (evs ++ [Event.debugWait (pm k).1])
        refine ⟨[Event.debugWait (pm k).1] ++ tail, ?_⟩
        rw [htail]; simp

/-- A mapper whose every call fails with the same error. -/
def c6pm : PortsMapper := fun _ => ([], some "enum fail")

/-- C6 counterexample: when the first enumeration fails, the Debug callback
IS invoked (with the LAST snapshot message) before the error is returned, so
the claim that no callback at all is invoked is false. -/
theorem first_error_debug_cex :
    Reset "p" true false c6pm none 3 = (("", some "enum fail"), [Event.debugLast []]) := rfl

/-- C6 (amended): if the enumeration function fails on its very first call,
Reset returns ("", that error) without invoking TouchingPort,
WaitingForNewSerial or BootloaderPortFound; the Debug callback is invoked
exactly once, with the initial snapshot message, before the error check. -/
theorem first_error_only_debug (pt : String) (w : Bool) (pm : PortsMapper)
    (te : Option String) (fuel : Nat) (e : String) (h : (pm 0).2 = some e) :
    Reset pt w false pm te fuel = (("", some e), [Event.debugLast (pm 0).1]) := by
  simp only [Reset, effMapper, Bool.false_eq_true, if_false, h]

/-- Witness for C6: a concrete mapper failing on the first call. -/
theorem first_error_only_debug_witness :
    Reset "q" true false c6pm none 1 = (("", some "enum fail"), [Event.debugLast []]) :=
  first_error_only_debug "q" true c6pm none 1 "enum fail" rfl

/-- C5 counterexample: target "x" is present, the touch fails with "boom"
and wait is on. The run is indistinguishable from one with a successful
touch, and its full callback trace shows that no callback - in particular no
Debug invocation - ever carries the touch error, so the claim that the touch
error is logged via the Debug callback is false. -/
theorem touch_error_unlogged_cex :
    Reset "x" true false constPm (some "boom") 1 = Reset "x" true false constPm none 1
  ∧ Reset "x" true false constPm (some "boom") 1 =
      (("", none),
       [Event.debugLast ["x"], Event.debugTouch "x", Event.touchingPort "x",
        Event.waitingForNewSerial, Event.debugWait ["x"], Event.bootloaderPortFound ""]) :=
  ⟨rfl, rfl⟩

/-- C5 (amended): when the touch is attempted and fails: with wait=false
Reset aborts with the wrapped touch error; with wait=true the touch error is
swallowed without being logged - result and callback trace are identical to
a run whose touch succeeded - and Reset proceeds to the waiting phase. -/
theorem touch_error_policy (pt : String) (pm : PortsMapper) (fuel : Nat) (e : String)
    (h0 : (pm 0).2 = none) (ht : ((pt != "") && (pm 0).1.contains pt) = true) :
    (Reset pt false false pm (some e) fuel).1 = ("", some ("1200-bps touch: " ++ e))
  ∧ Reset pt true false pm (some e) fuel = Reset pt true false pm none fuel
  ∧ Event.waitingForNewSerial ∈ (Reset pt true false pm (some e) fuel).2 := by
  refine ⟨?_, ?_, ?_⟩
  · simp only [Reset, effMapper, Bool.false_eq_true, if_false, h0, ht, if_true,
      Bool.not_false]
  · simp only [Reset, effMapper, Bool.false_eq_true, if_false, h0, ht, if_true,
      Bool.not_true]
  · simp only [Reset, effMapper, Bool.false_eq_true, if_false, h0, ht, if_true,
      Bool.not_true, resetWait]
    obtain ⟨tail, htail⟩ := resetLoop_events_prefix pm fuel 1 (pm 0).1
      (([Event.debugLast (pm 0).1] ++
        [Event.debugTouch pt, Event.touchingPort pt]) ++ [Event.waitingForNewSerial])
    rw [htail]
    simp

/-- Witness for C5: target "x" visible in the constant snapshot, touch
failing with "boom". -/
theorem touch_error_policy_witness :
    (Reset "x" false false constPm (some "boom") 1).1 =
      ("", some ("1200-bps touch: " ++ "boom"))
  ∧ Reset "x" true false constPm (some "boom") 1 = Reset "x" true false constPm none 1
  ∧ Event.waitingForNewSerial ∈ (Reset "x" true false constPm (some "boom") 1).2 :=
  touch_error_policy "x" constPm 1 "boom" rfl rfl

/-- Witness for C9 at concrete inputs: failed open, successful touch on
Windows, failed DTR-deassertion off Windows. -/
theorem touch_closes_port_witness :
    Touch1200bps "p" false (some "x") none =
      (some ("opening port at 1200bps: " ++ "x"), [SerialAction.openPort "p" 1200])
  ∧ SerialAction.closePort ∈ (Touch1200bps "p" true none none).2
  ∧ Touch1200bps "p" false none (some "d") =
      (some ("setting DTR to OFF: " ++ "d"),
       [SerialAction.openPort "p" 1200, SerialAction.setDTR false,
        SerialAction.closePort]) :=
  ⟨(touch_closes_port "p" false (some "x") none).1 "x" rfl,
   (touch_closes_port "p" true none none).2.1 rfl,
   (touch_closes_port "p" false none (some "d")).2.2 "d" rfl rfl rfl⟩

lemma ends999_ne_empty (t : String) (h : hasSuffix t "999" = true) : t ≠ "" := by
  intro he; subst he; exact absurd h (by decide)

lemma append0_ne (t : String) : t ++ "0" ≠ t := by
  intro he
  have h1 := congrArg String.length he
  rw [String.length_append] at h1
  have h2 : ("0" : String).length = 1 := rfl
  omega

lemma append0_ne_empty (t : String) : t ++ "0" ≠ "" := by
  intro he
  have h1 := congrArg String.length he
  rw [String.length_append] at h1
  have h2 : ("0" : String).length = 1 := rfl
  have h3 : ("" : String).length = 0 := rfl
  omega

lemma ends999_append0 (t : String) : hasSuffix (t ++ "0") "999" = false := by
  unfold hasSuffix
  rw [Bool.eq_false_iff]
  intro hc
  rw [List.isSuffixOf_iff_suffix, String.data_append] at hc
  obtain ⟨u, hu⟩ := hc
  have h0 : ("0" : String).data = ['0'] := rfl
  rw [h0] at hu
  have h1 := congrArg List.getLast? hu
  rw [List.getLast?_append] at h1
  simp at h1

lemma emuState_stable (t : String) (hne : t ≠ "") (h9 : hasSuffix t "999" = false) :
    ∀ n, emuState t n = t := by
  intro n
  induction n with
  | zero => rfl
  | succ m ih =>
    show emuNext (emuState t m) = t
    rw [ih]
    simp [emuNext, h9, hne]

lemma emuState_999 (t : String) (h9 : hasSuffix t "999" = true) :
    ∀ n, emuState t (n + 1) = t ++ "0" := by
  intro n
  induction n with
  | zero =>
    show emuNext (emuState t 0) = t ++ "0"
    simp [emuState, emuNext, h9]
  | succ m ih =>
    show emuNext (emuState t (m + 1)) = t ++ "0"
    rw [ih]
    simp [emuNext, ends999_append0 t, append0_ne_empty t]

lemma emuState_empty : ∀ n, emuState "" (n + 1) = "newport" := by
  intro n
  induction n with
  | zero => rfl
  | succ m ih =>
    show emuNext (emuState "" (m + 1)) = "newport"
    rw [ih]
    decide

lemma resetLoop_emu_stable (t : String) (hne : t ≠ "") (h9 : hasSuffix t "999" = false) :
    ∀ (f k : Nat) (evs : List Event),
    (resetLoop (emuMapper t) k [t] f evs).1 = ("", none) := by
  intro f
  induction f with
  | zero => intro k evs; rfl
  | succ n ih =>
    intro k evs
    rw [resetLoop]
    have hp : (emuMapper t k).1 = [t] := by
      simp [emuMapper, emuState_stable t hne h9, emuPorts, hne]
    have h2 : (emuMapper t k).2 = none := rfl
    have hno : (emuMapper t k).1.any (isNew [t]) = false := by
      rw [hp]
      simp [isNew, List.contains, List.elem]
    simp only [h2, hno, Bool.false_eq_true, if_false]
    rw [hp]
    exact ih (k + 1) _

/-- C4: dry-run Reset with wait=true: a target ending in "999" yields
(target ++ "0", nil) as soon as the deadline allows one poll; the empty
target yields ("newport", nil); any other non-empty target yields ("", nil)
once the dry-run deadline expires, whatever its length. -/
theorem dry_run_results (t : String) (pm : PortsMapper) (te : Option String) (fuel : Nat) :
    (hasSuffix t "999" = true →
      (Reset t true true pm te (fuel + 1)).1 = (t ++ "0", none))
  ∧ ((Reset "" true true pm te (fuel + 1)).1 = ("newport", none))
  ∧ (t ≠ "" → hasSuffix t "999" = false →
      ∀ f, (Reset t true true pm te f).1 = ("", none)) := by
  refine ⟨?_, rfl, ?_⟩
  · intro h9
    have hne : t ≠ "" := ends999_ne_empty t h9
    have hbne : (t != "") = true := bne_iff_ne.mpr hne
    have hp0 : (emuMapper t 0).1 = [t] := by simp [emuMapper, emuState, emuPorts, hne]
    have hc1 : ([t] : Snapshot).contains t = true := by
      simp [List.contains, List.elem]
    have hcne : ((t ++ "0") == t) = false := beq_eq_false_iff_ne.mpr (append0_ne t)
    have hp1 : (emuMapper t 1).1 = [t ++ "0"] := by
      simp [emuMapper, emuState_999 t h9 0, emuPorts, append0_ne_empty t]
    have hp2 : (emuMapper t 2).1 = [t ++ "0"] := by
      simp [emuMapper, emuState_999 t h9 1, emuPorts, append0_ne_empty t]
    have hAny : (emuMapper t 1).1.any (isNew [t]) = true := by
      rw [hp1]
      simp [isNew, List.contains, List.elem, hcne]
    have hFind : (emuMapper t 2).1.find? (isNew [t]) = some (t ++ "0") := by
      rw [hp2]
      simp [List.find?, isNew, List.contains, List.elem, hcne]
    have h20 : (emuMapper t 0).2 = none := rfl
    have h21 : (emuMapper t 1).2 = none := rfl
    have h22 : (emuMapper t 2).2 = none := rfl
    simp only [Reset, effMapper, if_true, h20, hp0, hbne, hc1, Bool.and_self,
      resetWait, resetLoop, h21, hAny, h22, hFind]
  · intro hne h9 f
    have hbne : (t != "") = true := bne_iff_ne.mpr hne
    have hp0 : (emuMapper t 0).1 = [t] := by simp [emuMapper, emuState, emuPorts, hne]
    have hc1 : ([t] : Snapshot).contains t = true := by
      simp [List.contains, List.elem]
    have h20 : (emuMapper t 0).2 = none := rfl
    simp only [Reset, effMapper, if_true, h20, hp0, hbne, hc1, Bool.and_self, resetWait]
    exact resetLoop_emu_stable t hne h9 f 1 _

/-- Witness for C4: targets "x999", "" and "ab" under the dry-run
emulator. -/
theorem dry_run_results_witness :
    (Reset "x999" true true constPm none 1).1 = ("x999" ++ "0", none)
  ∧ (Reset "" true true constPm none 1).1 = ("newport", none)
  ∧ (Reset "ab" true true constPm none 5).1 = ("", none) :=
  ⟨(dry_run_results "x999" constPm none 0).1 rfl,
   (dry_run_results "x999" constPm none 0).2.1,
   (dry_run_results "ab" constPm none 0).2.2 (by decide) rfl 5⟩

/-- C7 counterexample: for the target "999" the second emulator call
reports only "9990"; the original target port is no longer present, so the
claim that every invocation reports the target whenever it is non-empty is
false. -/
theorem emulator_target_dropped_cex :
    (emuMapper "999" 1).1 = ["9990"]
  ∧ ((emuMapper "999" 1).1.contains "999") = false
  ∧ ((effMapper true "999" constPm 1).1.contains "999") = false :=
  ⟨rfl, by decide, by decide⟩

/-- C7 (amended): the dry-run substitution installs the emulator, and each
emulator call reports exactly the current emulated port (when non-empty)
with no error.  A non-empty target not ending in "999" is reported by every
call; a target ending in "999" is reported only by the first call - every
later call reports target ++ "0" in its place; with an empty target the
first call reports nothing and every later call reports "newport". -/
theorem emulator_reports (t : String) (pm : PortsMapper) (n : Nat) :
    effMapper true t pm = emuMapper t
  ∧ emuMapper t n = (emuPorts (emuState t n), none)
  ∧ (emuMapper t 0).1 = emuPorts t
  ∧ (t ≠ "" → hasSuffix t "999" = false → (emuMapper t n).1 = [t])
  ∧ (hasSuffix t "999" = true → (emuMapper t (n + 1)).1 = [t ++ "0"])
  ∧ ((emuMapper "" (n + 1)).1 = ["newport"]) := by
  refine ⟨rfl, rfl, rfl, ?_, ?_, ?_⟩
  · intro hne h9
    simp [emuMapper, emuState_stable t hne h9, emuPorts, hne]
  · intro h9
    simp [emuMapper, emuState_999 t h9 n, emuPorts, append0_ne_empty t]
  · simp [emuMapper, emuState_empty n, emuPorts]

/-- Witness for C7 at concrete targets "ab", "x999" and "". -/
theorem emulator_reports_witness :
    (emuMapper "ab" 2).1 = ["ab"]
  ∧ (emuMapper "x999" 1).1 = ["x999" ++ "0"]
  ∧ (emuMapper "" 1).1 = ["newport"] :=
  ⟨(emulator_reports "ab" constPm 2).2.2.2.1 (by decide) rfl,
   (emulator_reports "x999" constPm 0).2.2.2.2.1 rfl,
   (emulator_reports "" constPm 0).2.2.2.2.2⟩

lemma resetLoop_found (pm : PortsMapper) (fuel : Nat) :
    ∀ (k : Nat) (last : Snapshot) (evs : List Event) (p : String) (evs' : List Event),
    resetLoop pm k last fuel evs = ((p, none), evs') → p ≠ "" →
    ∃ m L,
      ((m = k ∧ L = last) ∨
        ∃ j, k ≤ j ∧ j < m ∧ L = (pm j).1 ∧ (m = j + 1 ∨ m = j + 2)) ∧
      (pm m).2 = none ∧ (pm (m + 1)).2 = none ∧
      L.contains p = false ∧ p ∈ (pm (m + 1)).1 ∧
      ∃ q, q ∈ (pm m).1 ∧ L.contains q = false := by
  induction fuel with
  | zero =>
    intro k last evs p evs' h hp
    exfalso
    apply hp
    rw [resetLoop] at h
    have h1 := congrArg (fun r => r.1.1) h
    simpa using h1.symm
  | succ n ih =>
    intro k last evs p evs' h hp
    rw [resetLoop] at h
    cases h0 : (pm k).2 with
    | some e => simp [h0] at h
    | none =>
      simp only [h0] at h
      by_cases hNew : (pm k).1.any (isNew last) = true
      · simp only [hNew, if_true] at h
        cases h1 : (pm (k + 1)).2 with
        | some e => simp [h1] at h
        | none =>
          simp only [h1] at h
          cases h2 : (pm (k + 1)).1.find? (isNew last) with
          | some p' =>
            simp only [h2] at h
            have hpp : p' = p := by
              have h3 := congrArg (fun r => r.1.1) h
              simpa using h3
            subst hpp
            refine ⟨k, last, Or.inl ⟨rfl, rfl⟩, h0, h1, ?_, ?_, ?_⟩
            · have h4 := List.find?_some h2
              simpa [isNew] using h4
            · exact List.mem_of_find?_eq_some h2
            · obtain ⟨q, hq1, hq2⟩ := List.any_eq_true.mp hNew
              exact ⟨q, hq1, by simpa [isNew] using hq2⟩
          | none =>
            simp only [h2] at h
            obtain ⟨m, L, hbase, hm1, hm2, hm3, hm4, hm5⟩ :=
              ih (k + 2) (pm k).1 _ p evs' h hp
            refine ⟨m, L, ?_, hm1, hm2, hm3, hm4, hm5⟩
            rcases hbase with ⟨hmk, hL⟩ | ⟨j, hj1, hj2, hj3, hj4⟩
            · exact Or.inr ⟨k, Nat.le_refl k, by omega, hL, Or.inr (by omega)⟩
            · exact Or.inr ⟨j, by omega, hj2, hj3, hj4⟩
      · simp only [Bool.not_eq_true] at hNew
        simp only [hNew, Bool.false_eq_true, if_false] at h
        obtain ⟨m, L, hbase, hm1, hm2, hm3, hm4, hm5⟩ :=
          ih (k + 1) (pm k).1 _ p evs' h hp
        refine ⟨m, L, ?_, hm1, hm2, hm3, hm4, hm5⟩
        rcases hbase with ⟨hmk, hL⟩ | ⟨j, hj1, hj2, hj3, hj4⟩
        · exact Or.inr ⟨k, Nat.le_refl k, by omega, hL, Or.inl (by omega)⟩
        · exact Or.inr ⟨j, by omega, hj2, hj3, hj4⟩

lemma resetWait_found (epm : PortsMapper) (last : Snapshot) (fuel : Nat)
    (evsX : List Event) (p : String) (evs : List Event)
    (h : resetWait epm true last fuel evsX = ((p, none), evs)) (hp : p ≠ "") :
    ∃ m L,
      ((m = 1 ∧ L = last) ∨
        ∃ j, 1 ≤ j ∧ j < m ∧ L = (epm j).1 ∧ (m = j + 1 ∨ m = j + 2)) ∧
      L.contains p = false ∧ p ∈ (epm (m + 1)).1 ∧
      ∃ q, q ∈ (epm m).1 ∧ L.contains q = false := by
  rw [resetWait, if_pos rfl] at h
  obtain ⟨m, L, hbase, _, _, hm3, hm4, hm5⟩ := resetLoop_found epm fuel 1 last _ p evs h hp
  exact ⟨m, L, hbase, hm3, hm4, hm5⟩

lemma reset_wait_shape (pt : String) (dr : Bool) (pm : PortsMapper) (te : Option String)
    (fuel : Nat) (h0 : (effMapper dr pt pm 0).2 = none) :
    ∃ evsX, Reset pt true dr pm te fuel =
      resetWait (effMapper dr pt pm) true (effMapper dr pt pm 0).1 fuel evsX := by
  rw [Reset]
  simp only [h0]
  by_cases ht : ((pt != "") && (effMapper dr pt pm 0).1.contains pt) = true
  · simp only [ht, if_true]
    by_cases hd : dr = true
    · simp only [hd, if_true]
      exact ⟨_, rfl⟩
    · simp only [Bool.not_eq_true] at hd
      simp only [hd, Bool.false_eq_true, if_false]
      cases te with
      | some e =>
        simp only [Bool.not_true, Bool.false_eq_true, if_false]
        exact ⟨_, rfl⟩
      | none => exact ⟨_, rfl⟩
  · simp only [Bool.not_eq_true] at ht
    simp only [ht, Bool.false_eq_true, if_false]
    exact ⟨_, rfl⟩

/-- A mapper for which the port flagged in the now snapshot differs from
the port found in the check snapshot. -/
def c1pm : PortsMapper := fun n =>
  if n = 0 then ([], none) else if n = 1 then (["a"], none) else (["b"], none)

/-- C1 counterexample: with snapshots baseline = [], now = ["a"],
check = ["b"], Reset returns "b" although "b" never appeared in the now
snapshot that flagged novelty, so the returned port need not be present in
the two consecutive snapshots. -/
theorem found_not_in_now_cex :
    (Reset "" true false c1pm none 5).1 = ("b", none)
  ∧ ((c1pm 1).1.contains "b") = false :=
  ⟨rfl, by decide⟩

/-- C1 (amended): if Reset (wait=true) returns a non-empty port p, then at
the winning iteration p was absent from the baseline in effect - the
initial snapshot or an earlier now snapshot - and present in the
stabilization-check snapshot taken after the debounce delay; some port
absent from that baseline (not necessarily p itself) was present in the now
snapshot that triggered the check; a port absent from the check snapshot is
never returned. -/
theorem reset_found_port_stable (pt : String) (dr : Bool) (pm : PortsMapper)
    (te : Option String) (fuel : Nat) (p : String) (evs : List Event)
    (h : Reset pt true dr pm te fuel = ((p, none), evs)) (hp : p ≠ "") :
    ∃ m L,
      ((m = 1 ∧ L = (effMapper dr pt pm 0).1) ∨
        ∃ j, 1 ≤ j ∧ j < m ∧ L = (effMapper dr pt pm j).1 ∧ (m = j + 1 ∨ m = j + 2)) ∧
      L.contains p = false ∧ p ∈ (effMapper dr pt pm (m + 1)).1 ∧
      ∃ q, q ∈ (effMapper dr pt pm m).1 ∧ L.contains q = false := by
  cases h0 : (effMapper dr pt pm 0).2 with
  | some e =>
    rw [Reset] at h
    simp [h0] at h
  | none =>
    obtain ⟨evsX, hshape⟩ := reset_wait_shape pt dr pm te fuel h0
    rw [hshape] at h
    exact resetWait_found _ _ _ _ _ _ h hp

/-- A mapper whose first call succeeds with nothing and which then always
reports one fixed port. -/
def foundPm : PortsMapper := fun n => if n = 0 then ([], none) else (["w"], none)

/-- Witness for C1: the run over foundPm returns "w" with the initial
snapshot as baseline. -/
theorem reset_found_port_stable_witness :
    ∃ m L,
      ((m = 1 ∧ L = (effMapper false "" foundPm 0).1) ∨
        ∃ j, 1 ≤ j ∧ j < m ∧ L = (effMapper false "" foundPm j).1 ∧ (m = j + 1 ∨ m = j + 2)) ∧
      L.contains "w" = false ∧ "w" ∈ (effMapper false "" foundPm (m + 1)).1 ∧
      ∃ q, q ∈ (effMapper false "" foundPm m).1 ∧ L.contains q = false :=
  reset_found_port_stable "" false foundPm none 3 "w"
    [Event.debugLast [], Event.waitingForNewSerial, Event.debugWait ["w"],
     Event.debugNewPorts, Event.debugCheck ["w"], Event.bootloaderPortFound "w"]
    rfl (by decide)

/-- A mapper exhibiting a failed stabilization check: a port "b" flashes in
call 1 and is gone by call 2, after which the steady port "a" is flagged
against the stale baseline ["b"]. -/
def c3pm : PortsMapper := fun n => if n = 1 then (["b"], none) else (["a"], none)

/-- C3 counterexample: after the failed stabilization check the baseline
becomes the now snapshot ["b"] of call 1, not the check snapshot ["a"] of
call 2, so the next diff flags "a" as new and Reset returns it even though
"a" was present in the most recent successful enumeration. -/
theorem baseline_not_most_recent_cex :
    (Reset "" true false c3pm none 5).1 = ("a", none)
  ∧ "a" ∈ (c3pm 2).1 :=
  ⟨rfl, by decide⟩

/-- C3 (amended): the baseline used for diffing is always the most recent
now snapshot (or the initial snapshot), never a stabilization-check
snapshot: any port returned by Reset (wait=true) is new relative to the
mapper result at some index j, where the flagging snapshot has index m with
m = j + 1, or m = j + 2 when a failed stabilization check intervened - in
which case the intervening check result at index j + 1 is skipped as a
baseline. -/
theorem reset_baseline_is_now_snapshot (pt : String) (dr : Bool) (pm : PortsMapper)
    (te : Option String) (fuel : Nat) (p : String) (evs : List Event)
    (h : Reset pt true dr pm te fuel = ((p, none), evs)) (hp : p ≠ "") :
    ∃ m j, ((j = 0 ∧ m = 1) ∨ (1 ≤ j ∧ j < m ∧ (m = j + 1 ∨ m = j + 2))) ∧
      ((effMapper dr pt pm j).1.contains p = false) ∧
      p ∈ (effMapper dr pt pm (m + 1)).1 ∧
      ∃ q, q ∈ (effMapper dr pt pm m).1 ∧ (effMapper dr pt pm j).1.contains q = false := by
  cases h0 : (effMapper dr pt pm 0).2 with
  | some e =>
    rw [Reset] at h
    simp [h0] at h
  | none =>
    obtain ⟨evsX, hshape⟩ := reset_wait_shape pt dr pm te fuel h0
    rw [hshape] at h
    obtain ⟨m, L, hbase, hm3, hm4, hm5⟩ := resetWait_found _ _ _ _ _ _ h hp
    rcases hbase with ⟨hm, hL⟩ | ⟨j, hj1, hj2, hj3, hj4⟩
    · subst hL
      exact ⟨m, 0, Or.inl ⟨rfl, hm⟩, hm3, hm4, hm5⟩
    · subst hj3
      exact ⟨m, j, Or.inr ⟨hj1, hj2, hj4⟩, hm3, hm4, hm5⟩

/-- Witness for C3: the run over foundPm returns "w", flagged at m = 1
against the initial snapshot, j = 0. -/
theorem reset_baseline_is_now_snapshot_witness :
    ∃ m j, ((j = 0 ∧ m = 1) ∨ (1 ≤ j ∧ j < m ∧ (m = j + 1 ∨ m = j + 2))) ∧
      ((effMapper false "" foundPm j).1.contains "w" = false) ∧
      "w" ∈ (effMapper false "" foundPm (m + 1)).1 ∧
      ∃ q, q ∈ (effMapper false "" foundPm m).1 ∧
        (effMapper false "" foundPm j).1.contains q = false :=
  reset_baseline_is_now_snapshot "" false foundPm none 2 "w"
    [Event.debugLast [], Event.waitingForNewSerial, Event.debugWait ["w"],
     Event.debugNewPorts, Event.debugCheck ["w"], Event.bootloaderPortFound "w"]
    rfl (by decide)

lemma contains_true_iff (l : Snapshot) (p : String) : l.contains p = true ↔ p ∈ l := by
  simp [List.contains]

lemma resetLoop_no_new (pm : PortsMapper) (H1 : ∀ n, (pm n).2 = none)
    (H2 : ∀ n p, p ∈ (pm (n + 1)).1 → p ∈ (pm n).1) :
    ∀ (fuel k : Nat) (last : Snapshot) (evs : List Event),
    (∀ p, p ∈ (pm k).1 → p ∈ last) →
    ∃ pre, resetLoop pm k last fuel evs = (("", none), pre ++ [Event.bootloaderPortFound ""]) := by
  intro fuel
  induction fuel with
  | zero => intro k last evs hsub; exact ⟨evs, rfl⟩
  | succ n ih =>
    intro k last evs hsub
    rw [resetLoop]
    simp only [H1 k]
    have hno : (pm k).1.any (isNew last) = false := by
      apply List.any_eq_false.mpr
      intro x hx
      have hc : last.contains x = true := (contains_true_iff last x).mpr (hsub x hx)
      simp [isNew, hc]
      exact hsub x hx
    simp only [hno, Bool.false_eq_true, if_false]
    exact ih (k + 1) (pm k).1 _ (fun p hp => H2 k p hp)

lemma resetLoop_empty_ends (pm : PortsMapper) (fuel : Nat) :
    ∀ (k : Nat) (last : Snapshot) (evs evs' : List Event),
    resetLoop pm k last fuel evs = (("", none), evs') →
    ∃ pre, evs' = pre ++ [Event.bootloaderPortFound ""] := by
  induction fuel with
  | zero =>
    intro k last evs evs' h
    rw [resetLoop] at h
    have h1 := congrArg (fun r => r.2) h
    exact ⟨evs, by simpa using h1.symm⟩
  | succ n ih =>
    intro k last evs evs' h
    rw [resetLoop] at h
    cases h0 : (pm k).2 with
    | some e => simp [h0] at h
    | none =>
      simp only [h0] at h
      by_cases hNew : (pm k).1.any (isNew last) = true
      · simp only [hNew, if_true] at h
        cases h1 : (pm (k + 1)).2 with
        | some e => simp [h1] at h
        | none =>
          simp only [h1] at h
          cases h2 : (pm (k + 1)).1.find? (isNew last) with
          | some p' =>
            simp only [h2] at h
            have hp' : p' = "" := by
              have h3 := congrArg (fun r => r.1.1) h
              simpa using h3
            subst hp'
            have h4 := congrArg (fun r => r.2) h
            simp only at h4
            exact ⟨_, h4.symm⟩
          | none =>
            simp only [h2] at h
            exact ih (k + 2) (pm k).1 _ evs' h
      · simp only [Bool.not_eq_true] at hNew
        simp only [hNew, Bool.false_eq_true, if_false] at h
        exact ih (k + 1) (pm k).1 _ evs' h

/-- C8: the timeout of the waiting phase is a normal outcome, not an error:
first, when the mapper never fails and never shows a new port (each
snapshot is contained in the previous one), Reset with wait=true returns
("", nil) with a final BootloaderPortFound("") invocation; second, whenever
Reset with wait=true returns ("", nil) its callback trace ends with that
explicit empty-string BootloaderPortFound invocation. -/
theorem timeout_not_error :
    (∀ (pt : String) (pm : PortsMapper) (te : Option String) (fuel : Nat),
      (∀ n, (pm n).2 = none) →
      (∀ n p, p ∈ (pm (n + 1)).1 → p ∈ (pm n).1) →
      ∃ pre, Reset pt true false pm te fuel =
        (("", none), pre ++ [Event.bootloaderPortFound ""]))
  ∧ (∀ (pt : String) (dr : Bool) (pm : PortsMapper) (te : Option String) (fuel : Nat)
       (evs : List Event),
      Reset pt true dr pm te fuel = (("", none), evs) →
      ∃ pre, evs = pre ++ [Event.bootloaderPortFound ""]) := by
  constructor
  · intro pt pm te fuel H1 H2
    have h0 : (effMapper false pt pm 0).2 = none := H1 0
    obtain ⟨evsX, hshape⟩ := reset_wait_shape pt false pm te fuel h0
    rw [hshape, resetWait, if_pos rfl]
    exact resetLoop_no_new pm H1 H2 fuel 1 (effMapper false pt pm 0).1 _
      (fun p hp => H2 0 p hp)
  · intro pt dr pm te fuel evs h
    cases h0 : (effMapper dr pt pm 0).2 with
    | some e =>
      rw [Reset] at h
      simp [h0] at h
    | none =>
      obtain ⟨evsX, hshape⟩ := reset_wait_shape pt dr pm te fuel h0
      rw [hshape, resetWait, if_pos rfl] at h
      exact resetLoop_empty_ends _ fuel 1 _ _ evs h

/-- Witness for C8: the constant mapper times out, and the concrete run
with one poll iteration ends with BootloaderPortFound(""). -/
theorem timeout_not_error_witness :
    (∃ pre, Reset "" true false constPm none 2 =
      (("", none), pre ++ [Event.bootloaderPortFound ""]))
  ∧ (∃ pre, ([Event.debugLast ["x"], Event.waitingForNewSerial, Event.debugWait ["x"],
      Event.bootloaderPortFound ""] : List Event) =
      pre ++ [Event.bootloaderPortFound ""]) :=
  ⟨timeout_not_error.1 "" constPm none 2 (fun _ => rfl) (fun _ _ hp => hp),
   timeout_not_error.2 "" false constPm none 1
     [Event.debugLast ["x"], Event.waitingForNewSerial, Event.debugWait ["x"],
      Event.bootloaderPortFound ""] rfl⟩

end Serialutils
